import Mathlib

/-!
Shallow embedding of the Datatool repository (src/datatool/analyzer.py):
a command dispatcher over an in-memory table (`DataAnalyzer.run`).
Pure Python/pandas values are modelled as follows: machine floats are
modelled as exact rationals (`Rat`), pandas `NaN` as an explicit `na`
value, pandas exceptions (`TypeError` from comparing a float column with
a string, `KeyError` from indexing a missing column) as an explicit
`Except` error, and chart rendering (`plt.show()`) as an explicit effect
list in the output.
-/

namespace Datatool

/-- Storage type of a column, `series.dtype.kind in "biufc"` in the source
distinguishes numeric dtypes from object (text) dtypes. -/
inductive DType where
  | numeric
  | text
deriving DecidableEq, Repr

/-- A cell value: an exact rational (modelling int/float entries), a text
entry, or `na` (pandas NaN / missing).  `rt q` is used only in aggregate
outputs and denotes the nonnegative square root of `q` (pandas `std`,
which is irrational in general, is represented symbolically). -/
inductive Value where
  | num (q : Rat)
  | str (s : String)
  | na
  | rt (q : Rat)
deriving DecidableEq, Repr

/-- The in-memory dataset: column names, their storage types, and rows. -/
structure Table where
  cols : List String
  dtypes : List DType
  rows : List (List Value)
deriving DecidableEq, Repr

/-- Exceptions that the delegated pandas operations can raise out of
`run` (the dispatcher itself catches nothing). -/
inductive PyError where
  | typeError
  | keyError
deriving DecidableEq, Repr

/-- A chart handed to the display surface by `plt.show()`. -/
inductive Effect where
  | plotE (c : String)
  | histE (c : String)
  | scatterE (x y : String)
  | boxE (c : String)
  | heatmapE
deriving DecidableEq, Repr

/-- The value returned by one dispatch.  Results of operations that are
pure delegations to pandas display primitives whose content no claim
inspects (`info`, `describe`, `corr`, `cov`) are kept abstract as
constructors applied to the table. -/
inductive Result where
  | str (s : String)
  | table (t : Table)
  | val (v : Value)
  | vals (l : List Value)
  | vseries (l : List (Value × Value))
  | naCounts (l : List (String × Nat))
  | shape (r c : Nat)
  | colsOf (l : List String)
  | dtypesOf (l : List (String × DType))
  | infoOf (t : Table)
  | describeOf (t : Table)
  | corrOf (t : Table)
  | covOf (t : Table)
deriving DecidableEq, Repr

instance {ε α : Type} [DecidableEq ε] [DecidableEq α] : DecidableEq (Except ε α) := fun a b =>
  match a, b with
  | .ok x, .ok y =>
      if h : x = y then isTrue (by rw [h]) else isFalse (by intro he; cases he; exact h rfl)
  | .error x, .error y =>
      if h : x = y then isTrue (by rw [h]) else isFalse (by intro he; cases he; exact h rfl)
  | .ok _, .error _ => isFalse (by intro h; cases h)
  | .error _, .ok _ => isFalse (by intro h; cases h)

/-- The full observable outcome of one `run` call: the returned value (or
raised exception), the charts rendered, and the analyzer's table after
the call (the source never assigns `self.df`, so every branch carries the
incoming table through unchanged). -/
structure Out where
  res : Except PyError Result
  effects : List Effect
  df : Table
deriving DecidableEq, Repr

/-- Wrap an effect-free outcome. -/
def mkOut (t : Table) (r : Except PyError Result) : Out := ⟨r, [], t⟩

/- ## Command parsing: `re.match(r"(\w+)(?:\((.*)\))?$", command)` -/

/-- Whitespace as Python's `str.strip` (ASCII range) removes it. -/
def isPySpace (c : Char) : Bool :=
  c = ' ' || c = '\t' || c = '\n' || c = '\r' || c = '\x0b' || c = '\x0c'

/-- Strip leading and trailing whitespace from a character list. -/
def stripChars (cs : List Char) : List Char :=
  ((cs.dropWhile isPySpace).reverse.dropWhile isPySpace).reverse

/-- Python `s.strip()`. -/
def pyStrip (s : String) : String := String.mk (stripChars s.toList)

/-- Python regex `\w` (ASCII range): letters, digits, underscore. -/
def isWordChar (c : Char) : Bool := c.isAlphanum || c = '_'

/-- Parse a (pre-trimmed) command against `(\w+)(?:\((.*)\))?$`: a
nonempty run of word characters, optionally followed by a parenthesized
argument text that ends the string and contains no newline (regex `.`
does not match a newline).  Returns the function name and the raw
argument text when the parenthesized group is present. -/
def parseCommand (s : String) : Option (String × Option String) :=
  let cs := s.toList
  let w := cs.takeWhile isWordChar
  let rest := cs.dropWhile isWordChar
  if w = [] then none
  else
    match rest with
    | [] => some (String.mk w, none)
    | '(' :: r =>
        if r.getLast? = some ')' && (r.dropLast).all (fun c => c ≠ '\n') then
          some (String.mk w, some (String.mk r.dropLast))
        else none
    | _ => none

/-- Split a character list at every comma, as Python `s.split(",")`
does (adjacent commas yield empty pieces); `cur` holds the current piece
reversed. -/
def splitCommaAux (cur : List Char) : List Char → List (List Char)
  | [] => [cur.reverse]
  | c :: rest =>
      if c = ',' then cur.reverse :: splitCommaAux [] rest
      else splitCommaAux (c :: cur) rest

/-- Python `s.split(",")`. -/
def splitComma (cs : List Char) : List (List Char) := splitCommaAux [] cs

/-- Argument list construction from the matched argument text:
`[] if argstr is None or argstr.strip() == "" else [a.strip() for a in argstr.split(",")]`. -/
def splitArgs (argstr : Option String) : List String :=
  match argstr with
  | none => []
  | some a =>
      if stripChars a.toList = [] then []
      else (splitComma a.toList).map (fun cs => String.mk (stripChars cs))

/- ## Python numeric literal parsing: `int(s)` and `float(s)` -/

/-- Parse a nonempty digit run allowing single underscores between
digits (CPython numeric literal rule); returns the value and the number
of digits. `acc` holds the digits consumed so far. -/
def pyDigitsAux (acc : Nat) (k : Nat) : List Char → Option (Nat × Nat)
  | [] => some (acc, k)
  | '_' :: c :: rest =>
      if c.isDigit then pyDigitsAux (acc * 10 + (c.toNat - 48)) (k + 1) rest else none
  | '_' :: [] => none
  | c :: rest =>
      if c.isDigit then pyDigitsAux (acc * 10 + (c.toNat - 48)) (k + 1) rest else none

/-- Parse a nonempty underscore-grouped digit run: value and digit count. -/
def pyDigits? : List Char → Option (Nat × Nat)
  | [] => none
  | c :: rest => if c.isDigit then pyDigitsAux (c.toNat - 48) 1 rest else none

/-- Python `int(s)`: surrounding whitespace stripped, optional sign,
then a digit run; anything else raises `ValueError` (modelled as `none`). -/
def pyInt? (s : String) : Option Int :=
  match stripChars s.toList with
  | '+' :: r => (pyDigits? r).map (fun p => (p.1 : Int))
  | '-' :: r => (pyDigits? r).map (fun p => -(p.1 : Int))
  | r => (pyDigits? r).map (fun p => (p.1 : Int))

/-- A successfully parsed Python float: a finite rational, NaN, or a
signed infinity. -/
inductive PyFloat where
  | num (q : Rat)
  | nan
  | inf (neg : Bool)
deriving DecidableEq, Repr

/-- Decimal part of `float(s)`: `digits [. digits?] | . digits`, with an
optional exponent handled by the caller. -/
def pyMantissa? (cs : List Char) : Option Rat :=
  let ip := cs.takeWhile (fun c => c ≠ '.')
  let rest := cs.dropWhile (fun c => c ≠ '.')
  match rest with
  | [] => (pyDigits? ip).map (fun p => (p.1 : Rat))
  | _ :: fp =>
      match ip, fp with
      | [], _ =>
          (pyDigits? fp).map (fun p => (p.1 : Rat) / ((10 : Rat) ^ p.2))
      | _, [] => (pyDigits? ip).map (fun p => (p.1 : Rat))
      | _, _ =>
          match pyDigits? ip, pyDigits? fp with
          | some i, some f => some ((i.1 : Rat) + (f.1 : Rat) / ((10 : Rat) ^ f.2))
          | _, _ => none

/-- Exponent suffix of `float(s)`: optional sign then a digit run. -/
def pyExp? (cs : List Char) : Option Int :=
  match cs with
  | '+' :: r => (pyDigits? r).map (fun p => (p.1 : Int))
  | '-' :: r => (pyDigits? r).map (fun p => -(p.1 : Int))
  | r => (pyDigits? r).map (fun p => (p.1 : Int))

/-- Scale a rational by a power of ten. -/
def scalePow10 (q : Rat) (e : Int) : Rat :=
  if 0 ≤ e then q * (10 : Rat) ^ e.toNat else q / (10 : Rat) ^ (-e).toNat

/-- Python `float(s)`: strip whitespace, optional sign, then either the
case-insensitive words inf/infinity/nan or a decimal literal with
optional exponent; failure models `ValueError`. -/
def pyFloat? (s : String) : Option PyFloat :=
  let cs := stripChars s.toList
  let signed : Bool × List Char :=
    match cs with
    | '+' :: r => (false, r)
    | '-' :: r => (true, r)
    | r => (false, r)
  let neg := signed.1
  let body := signed.2
  let low := body.map Char.toLower
  if low = ['i', 'n', 'f'] || low = ['i', 'n', 'f', 'i', 'n', 'i', 't', 'y'] then
    some (.inf neg)
  else if low = ['n', 'a', 'n'] then some .nan
  else
    let mant := body.takeWhile (fun c => c ≠ 'e' && c ≠ 'E')
    let rest := body.dropWhile (fun c => c ≠ 'e' && c ≠ 'E')
    let base : Option Rat :=
      match rest with
      | [] => pyMantissa? mant
      | _ :: ex =>
          match pyMantissa? mant, pyExp? ex with
          | some m, some e => some (scalePow10 m e)
          | _, _ => none
    base.map (fun q => .num (if neg then -q else q))

/- ## Column validation and lookup -/

/-- `DataAnalyzer._validate_columns`: the first candidate that is truthy
(nonempty) and not among the table's columns yields its error message;
empty candidates are skipped. -/
def validateColumns (t : Table) : List String → Option String
  | [] => none
  | c :: rest =>
      if c ≠ "" ∧ ¬ c ∈ t.cols then some ("❌ Column '" ++ c ++ "' not found.")
      else validateColumns t rest

/-- Specification-side reading of the validator: the first nonempty
candidate name missing from the schema. -/
def firstMissing (t : Table) (cands : List String) : Option String :=
  cands.find? (fun c => decide (c ≠ "" ∧ ¬ c ∈ t.cols))

/-- Position search underlying `df[col]`: index of the first occurrence
of `c`, counting from `k`. -/
def idxFrom (c : String) : List String → Nat → Option Nat
  | [], _ => none
  | x :: r, k => if x = c then some k else idxFrom c r (k + 1)

/-- Index of a column name in the schema (`df[col]`: first match), or
`none` when the lookup would raise `KeyError`. -/
def colIndex? (t : Table) (c : String) : Option Nat :=
  idxFrom c t.cols 0

/-- The entries of column `i`, one per row (missing cells read as `na`). -/
def colValues (t : Table) (i : Nat) : List Value :=
  t.rows.map (fun r => r.getD i .na)

/-- Whether a cell is pandas-missing. -/
def Value.isNA : Value → Bool
  | .na => true
  | _ => false

/-- Whether a value-dtype pair conforms to what `pd.read_csv` can load:
numeric columns hold numbers or NaN, text columns hold strings or NaN. -/
def conform : DType → Value → Bool
  | .numeric, .num _ => true
  | .numeric, .na => true
  | .text, .str _ => true
  | .text, .na => true
  | _, _ => false

/-- Well-formedness of a loaded table: schema lengths agree and every
cell conforms to its column's storage type. -/
def Table.wf (t : Table) : Bool :=
  t.dtypes.length = t.cols.length &&
    t.rows.all (fun r =>
      r.length = t.cols.length && (t.dtypes.zip r).all (fun p => conform p.1 p.2))

/- ## Column statistics (the pandas Series reductions the source delegates to) -/

/-- Non-missing entries of a column (pandas default `skipna`). -/
def dropNA (s : List Value) : List Value := s.filter (fun v => !v.isNA)

/-- View a cell as a number. -/
def asNum? : Value → Option Rat
  | .num q => some q
  | _ => none

/-- View a cell as text. -/
def asStr? : Value → Option String
  | .str s => some s
  | _ => none

/-- The non-missing entries when they are all numeric, else `none`
(pandas raises `TypeError` for numeric reductions over text data). -/
def nums? (s : List Value) : Option (List Rat) := (dropNA s).mapM asNum?

/-- The non-missing entries when they are all text, else `none`. -/
def strs? (s : List Value) : Option (List String) := (dropNA s).mapM asStr?

/-- Python code-point comparison of strings (`<`). -/
def strLtB : List Char → List Char → Bool
  | [], [] => false
  | [], _ :: _ => true
  | _ :: _, [] => false
  | a :: as_, b :: bs =>
      if a.toNat < b.toNat then true
      else if b.toNat < a.toNat then false
      else strLtB as_ bs

/-- `Series.mean`: NaN-skipping mean; NaN when no data; `TypeError` on text. -/
def vMean (s : List Value) : Option Value :=
  (nums? s).map (fun l => if l = [] then .na else .num (l.sum / (l.length : Rat)))

/-- `Series.sum`: numeric sum, or string concatenation on all-text data. -/
def vSum (s : List Value) : Option Value :=
  match nums? s with
  | some l => some (.num l.sum)
  | none =>
      match strs? s with
      | some l => some (.str (String.join l))
      | none => none

/-- Smaller of two rationals. -/
def ratMin (a b : Rat) : Rat := if a ≤ b then a else b

/-- Larger of two rationals. -/
def ratMax (a b : Rat) : Rat := if a ≤ b then b else a

/-- Lexicographically smaller of two strings. -/
def strMin (a b : String) : String := if strLtB b.toList a.toList then b else a

/-- Lexicographically larger of two strings. -/
def strMax (a b : String) : String := if strLtB b.toList a.toList then a else b

/-- `Series.min`: NaN on empty data, numeric or lexicographic minimum on
homogeneous data, `TypeError` on mixed data. -/
def vMin (s : List Value) : Option Value :=
  match nums? s with
  | some [] => some .na
  | some (a :: l) => some (.num (l.foldl ratMin a))
  | none =>
      match strs? s with
      | some [] => some .na
      | some (a :: l) => some (.str (l.foldl strMin a))
      | none => none

/-- `Series.max`: as `vMin` with the maximum. -/
def vMax (s : List Value) : Option Value :=
  match nums? s with
  | some [] => some .na
  | some (a :: l) => some (.num (l.foldl ratMax a))
  | none =>
      match strs? s with
      | some [] => some .na
      | some (a :: l) => some (.str (l.foldl strMax a))
      | none => none

/-- Insert into a sorted list of rationals (ascending). -/
def insRat (a : Rat) : List Rat → List Rat
  | [] => [a]
  | b :: r => if a ≤ b then a :: b :: r else b :: insRat a r

/-- Insertion sort of rationals (ascending). -/
def sortRats (l : List Rat) : List Rat := l.foldr insRat []

/-- `Series.median`: middle of the sorted data (mean of the two middles
for even counts); NaN on empty data; `TypeError` on text. -/
def vMedian (s : List Value) : Option Value :=
  (nums? s).map (fun l =>
    if l = [] then .na
    else
      let srt := sortRats l
      let n := srt.length
      if n % 2 = 1 then .num (srt.getD (n / 2) 0)
      else .num ((srt.getD (n / 2 - 1) 0 + srt.getD (n / 2) 0) / 2))

/-- `Series.var` (sample variance, `ddof=1`): NaN with fewer than two
data points. -/
def vVar (s : List Value) : Option Value :=
  (nums? s).map (fun l =>
    if l.length < 2 then .na
    else
      let m := l.sum / (l.length : Rat)
      .num ((l.map (fun x => (x - m) ^ 2)).sum / ((l.length : Rat) - 1)))

/-- `Series.std`: square root of the sample variance, kept symbolic. -/
def vStd (s : List Value) : Option Value :=
  (vVar s).map (fun v =>
    match v with
    | .num q => .rt q
    | x => x)

/-- `Series.count`: number of non-missing entries. -/
def vCount (s : List Value) : Value := .num ((dropNA s).length : Rat)

/-- Distinct values in order of first appearance; `seen` accumulates the
values already emitted. -/
def dedupFAs (seen : List Value) : List Value → List Value
  | [] => []
  | v :: rest => if v ∈ seen then dedupFAs seen rest else v :: dedupFAs (v :: seen) rest

/-- Distinct values in order of first appearance. -/
def dedupFA (l : List Value) : List Value := dedupFAs [] l

/-- Number of occurrences of a value. -/
def countOcc (v : Value) (l : List Value) : Nat := (l.filter (fun x => x = v)).length

/-- Value comparison used to sort homogeneous mode results. -/
def valLtB : Value → Value → Bool
  | .num a, .num b => a < b
  | .str a, .str b => strLtB a.toList b.toList
  | _, _ => false

/-- Insert into a list sorted by `valLtB` (ascending). -/
def insVal (a : Value) : List Value → List Value
  | [] => [a]
  | b :: r => if valLtB b a then b :: insVal a r else a :: b :: r

/-- Insertion sort of values (ascending by `valLtB`). -/
def sortVals (l : List Value) : List Value := l.foldr insVal []

/-- `Series.mode().tolist()`: the most frequent non-missing values,
sorted ascending; `TypeError` on mixed numeric/text data. -/
def vMode (s : List Value) : Option (List Value) :=
  let d := dropNA s
  if d = [] then some []
  else if (nums? s).isSome || (strs? s).isSome then
    let dd := dedupFA d
    let mx := (dd.map (fun v => countOcc v d)).foldl Nat.max 0
    some (sortVals (dd.filter (fun v => countOcc v d = mx)))
  else none

/-- `Series.unique()`: distinct entries in order of first appearance,
missing entries included. -/
def vUnique (s : List Value) : List Value := dedupFA s

/-- `Series.nunique()`: number of distinct non-missing entries. -/
def vNunique (s : List Value) : Value := .num ((dedupFA (dropNA s)).length : Rat)

/-- Insert a (value, count) pair into a list sorted by descending count,
stably (after any pair with an equal count). -/
def insCnt (p : Value × Nat) : List (Value × Nat) → List (Value × Nat)
  | [] => [p]
  | q :: r => if q.2 < p.2 then p :: q :: r else q :: insCnt p r

/-- `Series.value_counts()`: distinct non-missing values with their
multiplicities, most frequent first. -/
def vValueCounts (s : List Value) : List (Value × Value) :=
  let d := dropNA s
  let pairs := (dedupFA d).map (fun v => (v, countOcc v d))
  ((pairs.foldl (fun acc p => insCnt p acc) []).map (fun p => (p.1, Value.num (p.2 : Rat))))

/- ## Row filter: operator parsing and elementwise comparison -/

/-- The six comparison operators the filter branch recognizes. -/
inductive Op where
  | eq
  | ne
  | gt
  | lt
  | ge
  | le
deriving DecidableEq, Repr

/-- Match the operator argument against the six recognized spellings
(the source tries them with a chain of equality tests). -/
def parseOp (s : String) : Option Op :=
  if s = "==" then some .eq
  else if s = "!=" then some .ne
  else if s = ">" then some .gt
  else if s = "<" then some .lt
  else if s = ">=" then some .ge
  else if s = "<=" then some .le
  else none

/-- Whether the operator is an ordering (not an equality) comparison. -/
def isOrd : Op → Bool
  | .eq => false
  | .ne => false
  | _ => true

/-- The coerced filter value: a parsed float when the column is numeric
and `float(value)` succeeded, else the raw string. -/
inductive Coerced where
  | fl (f : PyFloat)
  | sv (s : String)
deriving DecidableEq, Repr

/-- Whether coercion fell back to the raw string. -/
def Coerced.isSv : Coerced → Bool
  | .sv _ => true
  | _ => false

/-- `value_coerced: float(value) if series.dtype.kind in "biufc" else value`,
with the `ValueError` fallback keeping the raw string. -/
def coerceFor (numeric : Bool) (value : String) : Coerced :=
  if numeric then
    match pyFloat? value with
    | some f => .fl f
    | none => .sv value
  else .sv value

/-- Comparison of two rationals under an operator. -/
def cmpNum (o : Op) (a b : Rat) : Bool :=
  match o with
  | .eq => decide (a = b)
  | .ne => decide (a ≠ b)
  | .gt => decide (b < a)
  | .lt => decide (a < b)
  | .ge => decide (b ≤ a)
  | .le => decide (a ≤ b)

/-- Comparison of a finite number with a signed infinity. -/
def cmpInf (o : Op) (ng : Bool) : Bool :=
  match o with
  | .eq => false
  | .ne => true
  | .gt => ng
  | .lt => !ng
  | .ge => ng
  | .le => !ng

/-- Python code-point comparison of two strings under an operator. -/
def cmpStr (o : Op) (s w : String) : Bool :=
  match o with
  | .eq => decide (s = w)
  | .ne => decide (s ≠ w)
  | .gt => strLtB w.toList s.toList
  | .lt => strLtB s.toList w.toList
  | .ge => !strLtB s.toList w.toList
  | .le => !strLtB w.toList s.toList

/-- Comparison across incompatible kinds: equality comparisons are
decided (never equal, as in pandas/Python), ordering comparisons raise
`TypeError` (modelled as `none`). -/
def crossCmp (o : Op) : Option Bool :=
  if isOrd o then none else some (o == Op.ne)

/-- Elementwise comparison of a cell against the coerced filter value;
`none` models the comparison raising `TypeError`. NaN cells compare
false under every operator except `!=`, but ordering a NaN against a
string raises. -/
def evalOp (o : Op) (v : Value) (c : Coerced) : Option Bool :=
  match v, c with
  | .num a, .fl (.num b) => some (cmpNum o a b)
  | .num _, .fl .nan => some (o == Op.ne)
  | .num _, .fl (.inf ng) => some (cmpInf o ng)
  | .num _, .sv _ => crossCmp o
  | .str s, .sv w => some (cmpStr o s w)
  | .str _, .fl _ => crossCmp o
  | .na, .sv _ => crossCmp o
  | .na, .fl _ => some (o == Op.ne)
  | .rt _, _ => none

/-- The `filter(col, op, value)` branch of `run`: argument count check,
column validation, `df[col]` lookup, value coercion, then the comparison
chain; a numeric-dtype ordering comparison against an uncoerced string
raises `TypeError` at dtype level, and an elementwise `TypeError` in an
object column propagates as well. -/
def dispatchFilter (t : Table) : List String → Except PyError Result
  | [col, op, value] =>
      (match validateColumns t [col] with
      | some e => .ok (.str e)
      | none =>
        match colIndex? t col with
        | none => .error .keyError
        | some i =>
          let numeric := t.dtypes.getD i .text == DType.numeric
          let coerced := coerceFor numeric value
          match parseOp op with
          | none => .ok (.str "❌ Unsupported operator. Use ==, !=, >, <, >=, <=")
          | some o =>
            if isOrd o && numeric && coerced.isSv then .error .typeError
            else if (t.rows.map (fun r => evalOp o (r.getD i .na) coerced)).all Option.isSome then
              .ok (.table ⟨t.cols, t.dtypes,
                t.rows.filter (fun r => evalOp o (r.getD i .na) coerced == some true)⟩)
            else .error .typeError)
  | _ => .ok (.str "❌ filter(col, op, value) required")

/- ## Grouped aggregation -/

/-- The aggregate names the groupby branch accepts. -/
def aggSet : List String := ["mean", "sum", "min", "max", "count", "median", "std", "var"]

/-- Dispatch an aggregate name to its Series reduction. -/
def applyAgg (agg : String) (s : List Value) : Option Value :=
  if agg = "mean" then vMean s
  else if agg = "sum" then vSum s
  else if agg = "min" then vMin s
  else if agg = "max" then vMax s
  else if agg = "count" then some (vCount s)
  else if agg = "median" then vMedian s
  else if agg = "std" then vStd s
  else if agg = "var" then vVar s
  else none

/-- Distinct non-missing group keys (pandas `groupby` drops NaN keys).
They are enumerated in order of first appearance; pandas sorts the keys
by default, but the spec leaves the enumeration order deliberately
unspecified ("whatever enumeration order the underlying grouping
produces") and no claim depends on it. -/
def groupKeys (t : Table) (gi : Nat) : List Value :=
  (dedupFA (t.rows.map (fun r => r.getD gi .na))).filter (fun v => !v.isNA)

/-- The target-column entries of the rows in group `k`. -/
def groupVals (t : Table) (gi ti : Nat) (k : Value) : List Value :=
  (t.rows.filter (fun r => r.getD gi .na == k)).map (fun r => r.getD ti .na)

/-- The `groupby(group_col, agg, target_col)` branch of `run`. -/
def dispatchGroupby (t : Table) : List String → Except PyError Result
  | [gcol, agg, tcol] =>
      (match validateColumns t [gcol, tcol] with
      | some e => .ok (.str e)
      | none =>
        if agg ∈ aggSet then
          match colIndex? t gcol, colIndex? t tcol with
          | some gi, some ti =>
            (match (groupKeys t gi).mapM
                (fun k => (applyAgg agg (groupVals t gi ti k)).map (fun v => (k, v))) with
            | some l => .ok (.vseries l)
            | none => .error .typeError)
          | _, _ => .error .keyError
        else .ok (.str "❌ Unsupported agg. Use mean,sum,min,max,count,median,std,var"))
  | _ => .ok (.str "❌ groupby(group_col, agg, target_col) required")

/- ## Single-column statistics -/

/-- The twelve single-column statistic names. -/
def singleColFuncs : List String :=
  ["mean", "median", "mode", "std", "var", "sum", "max", "min", "count",
   "unique", "nunique", "value_counts"]

/-- Turn an optional reduction result into a returned value or a raised
`TypeError`. -/
def exceptOfOpt (o : Option Result) : Except PyError Result :=
  match o with
  | some r => .ok r
  | none => .error .typeError

/-- Apply a single-column statistic to the column's entries. -/
def applySingle (f : String) (s : List Value) : Except PyError Result :=
  if f = "mean" then exceptOfOpt ((vMean s).map .val)
  else if f = "median" then exceptOfOpt ((vMedian s).map .val)
  else if f = "mode" then exceptOfOpt ((vMode s).map .vals)
  else if f = "std" then exceptOfOpt ((vStd s).map .val)
  else if f = "var" then exceptOfOpt ((vVar s).map .val)
  else if f = "sum" then exceptOfOpt ((vSum s).map .val)
  else if f = "max" then exceptOfOpt ((vMax s).map .val)
  else if f = "min" then exceptOfOpt ((vMin s).map .val)
  else if f = "count" then .ok (.val (vCount s))
  else if f = "unique" then .ok (.vals (vUnique s))
  else if f = "nunique" then .ok (.val (vNunique s))
  else if f = "value_counts" then .ok (.vseries (vValueCounts s))
  else .error .typeError

/-- The single-column statistic branch of `run`: arity check, column
validation, then `df[col]` and the reduction. -/
def dispatchSingle (t : Table) (f : String) (args : List String) : Except PyError Result :=
  match args with
  | [a] =>
      (match validateColumns t [a] with
      | some e => .ok (.str e)
      | none =>
        match colIndex? t a with
        | none => .error .keyError
        | some i => applySingle f (colValues t i))
  | _ => .ok (.str ("❌ " ++ f ++ "(col) expects exactly one column"))

/- ## Whole-table inspectors -/

/-- `df.head(n)`: the first `n` rows, or all but the last `|n|` rows for
negative `n` (pandas semantics); schema unchanged. -/
def headTable (t : Table) (n : Int) : Table :=
  ⟨t.cols, t.dtypes,
    if 0 ≤ n then t.rows.take n.toNat else t.rows.take (t.rows.length - n.natAbs)⟩

/-- `df.tail(n)`: the last `n` rows, or all but the first `|n|` rows for
negative `n`; schema unchanged. -/
def tailTable (t : Table) (n : Int) : Table :=
  ⟨t.cols, t.dtypes,
    if 0 ≤ n then t.rows.drop (t.rows.length - n.toNat) else t.rows.drop n.natAbs⟩

/-- The `head` branch of `run`: `n = 5` unless a first argument parses
as an integer; a non-integer first argument is a `ValueError` caught and
reported. -/
def runHead (t : Table) (args : List String) : Except PyError Result :=
  match args with
  | [] => .ok (.table (headTable t 5))
  | a :: _ =>
      match pyInt? a with
      | some n => .ok (.table (headTable t n))
      | none => .ok (.str "❌ head(n) expects integer n")

/-- The `tail` branch of `run`, mirror of the `head` branch. -/
def runTail (t : Table) (args : List String) : Except PyError Result :=
  match args with
  | [] => .ok (.table (tailTable t 5))
  | a :: _ =>
      match pyInt? a with
      | some n => .ok (.table (tailTable t n))
      | none => .ok (.str "❌ tail(n) expects integer n")

/-- `df.isna().sum()`: per-column count of missing entries. -/
def missingCounts (t : Table) : List (String × Nat) :=
  t.cols.enum.map (fun p => (p.2, ((colValues t p.1).filter Value.isNA).length))

/- ## Chart branches -/

/-- The `plot(col)` branch: arity, validation, then render and confirm. -/
def runPlot (t : Table) (args : List String) : Out :=
  match args with
  | [a] =>
      (match validateColumns t [a] with
      | some e => mkOut t (.ok (.str e))
      | none =>
        if a ∈ t.cols then ⟨.ok (.str ("📊 Plot displayed for " ++ a)), [.plotE a], t⟩
        else ⟨.error .keyError, [], t⟩)
  | _ => mkOut t (.ok (.str "❌ plot(col) expects one column"))

/-- The `hist(col)` branch. -/
def runHist (t : Table) (args : List String) : Out :=
  match args with
  | [a] =>
      (match validateColumns t [a] with
      | some e => mkOut t (.ok (.str e))
      | none =>
        if a ∈ t.cols then ⟨.ok (.str ("📊 Histogram displayed for " ++ a)), [.histE a], t⟩
        else ⟨.error .keyError, [], t⟩)
  | _ => mkOut t (.ok (.str "❌ hist(col) expects one column"))

/-- The `scatter(x, y)` branch: exactly two arguments, both validated;
the source imposes no distinctness requirement on the two names. -/
def runScatter (t : Table) (args : List String) : Out :=
  match args with
  | [x, y] =>
      (match validateColumns t [x, y] with
      | some e => mkOut t (.ok (.str e))
      | none =>
        if x ∈ t.cols ∧ y ∈ t.cols then
          ⟨.ok (.str ("📊 Scatter plot displayed for " ++ x ++ " vs " ++ y)),
            [.scatterE x y], t⟩
        else ⟨.error .keyError, [], t⟩)
  | _ => mkOut t (.ok (.str "❌ scatter(x, y) expects two columns"))

/-- The `box(col)` branch. -/
def runBox (t : Table) (args : List String) : Out :=
  match args with
  | [a] =>
      (match validateColumns t [a] with
      | some e => mkOut t (.ok (.str e))
      | none =>
        if a ∈ t.cols then ⟨.ok (.str ("📊 Box plot displayed for " ++ a)), [.boxE a], t⟩
        else ⟨.error .keyError, [], t⟩)
  | _ => mkOut t (.ok (.str "❌ box(col) expects one column"))

/- ## The dispatcher -/

/-- `DataAnalyzer.help_text`. -/
def helpText : String :=
  "Available commands:\n" ++
  "- head(), tail(n), info(), describe(), shape, columns, dtypes, missing()\n" ++
  "- corr(), cov()\n" ++
  "- mean(col), median(col), mode(col), std(col), var(col), sum(col)\n" ++
  "- max(col), min(col), count(col), unique(col), nunique(col), value_counts(col)\n" ++
  "- groupby(col, agg, target)  e.g., groupby(department, mean, salary)\n" ++
  "- filter(col, op, value)     ops: ==, !=, >, <, >=, <=\n" ++
  "- plot(col), hist(col), scatter(x, y), box(col), heatmap()\n" ++
  "- help\n" ++
  "Examples: describe(), mean(age), scatter(age, salary), value_counts(department)"

/-- The if-chain of `DataAnalyzer.run` after parsing: route the function
name to its branch, falling through to the unknown-function error. -/
def dispatch (t : Table) (func : String) (args : List String) : Out :=
  if func = "head" then mkOut t (runHead t args)
  else if func = "tail" then mkOut t (runTail t args)
  else if func = "info" then mkOut t (.ok (.infoOf t))
  else if func = "describe" then mkOut t (.ok (.describeOf t))
  else if func = "shape" then mkOut t (.ok (.shape t.rows.length t.cols.length))
  else if func = "columns" then mkOut t (.ok (.colsOf t.cols))
  else if func = "dtypes" then mkOut t (.ok (.dtypesOf (t.cols.zip t.dtypes)))
  else if func = "missing" then mkOut t (.ok (.naCounts (missingCounts t)))
  else if func = "corr" then mkOut t (.ok (.corrOf t))
  else if func = "cov" then mkOut t (.ok (.covOf t))
  else if func ∈ singleColFuncs then mkOut t (dispatchSingle t func args)
  else if func = "groupby" then mkOut t (dispatchGroupby t args)
  else if func = "filter" then mkOut t (dispatchFilter t args)
  else if func = "plot" then runPlot t args
  else if func = "hist" then runHist t args
  else if func = "scatter" then runScatter t args
  else if func = "box" then runBox t args
  else if func = "heatmap" then ⟨.ok (.str "📊 Heatmap displayed"), [.heatmapE], t⟩
  else mkOut t (.ok (.str ("❌ Function '" ++ func ++ "' not supported. Type 'help' for options.")))

/-- `DataAnalyzer.run`: strip the command, special-case the empty
command and the bare `help` word, parse against the grammar, build the
argument list, dispatch. -/
def run (t : Table) (command : String) : Out :=
  let cmd := pyStrip command
  if cmd = "" then mkOut t (.ok (.str "❌ Empty command"))
  else if cmd = "help" then mkOut t (.ok (.str helpText))
  else
    match parseCommand cmd with
    | none => mkOut t (.ok (.str ("❌ Invalid command: " ++ cmd)))
    | some (func, argstr) => dispatch t func (splitArgs argstr)

/-- Every function name that has a branch in `dispatch`. -/
def supportedFuncs : List String :=
  ["head", "tail", "info", "describe", "shape", "columns", "dtypes", "missing",
   "corr", "cov"] ++ singleColFuncs ++
  ["groupby", "filter", "plot", "hist", "scatter", "box", "heatmap"]

/- ## Specification-side predicates and concrete test tables -/

/-- Specification-side filter predicate for a numeric column compared
against the coerced number `q`: the row's entry satisfies the operator
(a missing entry satisfies only `!=`, as NaN does in pandas). -/
def numPred (o : Op) (q : Rat) : Value → Bool
  | .num a => cmpNum o a q
  | .na => o == Op.ne
  | _ => false

/-- Specification-side filter predicate for a text column compared as
raw text against `w`. -/
def strPred (o : Op) (w : String) : Value → Bool
  | .str s => cmpStr o s w
  | .na => o == Op.ne
  | _ => false

/-- The spec's worked example: columns `department,salary`, rows
`(eng,100),(eng,200),(sales,50)`. -/
def exTable : Table :=
  ⟨["department", "salary"], [.text, .numeric],
    [[.str "eng", .num 100], [.str "eng", .num 200], [.str "sales", .num 50]]⟩

/-- A three-row single-column numeric table. -/
def t3 : Table := ⟨["a"], [.numeric], [[.num 1], [.num 2], [.num 3]]⟩

/-- A one-row single-column numeric table. -/
def tPrice : Table := ⟨["price"], [.numeric], [[.num 10]]⟩

/- ## Helper lemmas -/

/-- The validator returns exactly the error message of the first
nonempty missing candidate. -/
theorem validate_firstMissing (t : Table) (cands : List String) :
    validateColumns t cands =
      (firstMissing t cands).map (fun c => "❌ Column '" ++ c ++ "' not found.") := by
  induction cands with
  | nil => rfl
  | cons c rest ih =>
      by_cases h : c ≠ "" ∧ ¬ c ∈ t.cols
      · rw [validateColumns, if_pos h, firstMissing,
          List.find?_cons_of_pos _ (by simpa using h)]
        rfl
      · rw [validateColumns, if_neg h, ih, firstMissing, firstMissing,
          List.find?_cons_of_neg _ (by simpa using h)]

/-- A candidate list whose every member is a schema column validates. -/
theorem firstMissing_none (t : Table) (cands : List String)
    (h : ∀ c ∈ cands, c ∈ t.cols) : firstMissing t cands = none := by
  rw [firstMissing, List.find?_eq_none]
  intro c hc
  simpa using fun _ => h c hc

/-- The position search succeeds exactly on present names. -/
theorem idxFrom_isSome (c : String) (l : List String) (k : Nat) :
    (idxFrom c l k).isSome ↔ c ∈ l := by
  induction l generalizing k with
  | nil => simp [idxFrom]
  | cons x r ih =>
      by_cases hx : x = c
      · simp [idxFrom, hx]
      · simp [idxFrom, hx, ih, List.mem_cons]
        intro h
        exact absurd h.symm hx

/-- The index found by the position search is bounded. -/
theorem idxFrom_lt (c : String) (l : List String) (k i : Nat)
    (h : idxFrom c l k = some i) : i < k + l.length := by
  induction l generalizing k with
  | nil => simp [idxFrom] at h
  | cons x r ih =>
      rw [idxFrom] at h
      by_cases hx : x = c
      · rw [if_pos hx] at h
        cases h
        simp
      · rw [if_neg hx] at h
        have := ih (k + 1) h
        simp only [List.length_cons]
        omega

/-- Column lookup succeeds exactly on schema columns. -/
theorem colIndex?_isSome (t : Table) (c : String) :
    (colIndex? t c).isSome ↔ c ∈ t.cols := idxFrom_isSome c t.cols 0

/-- A successful column lookup lands inside the schema. -/
theorem colIndex?_lt (t : Table) (c : String) (i : Nat)
    (h : colIndex? t c = some i) : i < t.cols.length := by
  have := idxFrom_lt c t.cols 0 i h
  omega

/-- A successful column lookup means the column is a schema column. -/
theorem colIndex?_mem (t : Table) (c : String) (i : Nat)
    (h : colIndex? t c = some i) : c ∈ t.cols := by
  rw [← colIndex?_isSome, h]
  rfl

/-- Extract pointwise conformance from the zipped `all` check. -/
theorem zip_conform (ds : List DType) (r : List Value)
    (h : ((ds.zip r).all fun p => conform p.1 p.2) = true) (i : Nat)
    (hd : i < ds.length) (hr : i < r.length) :
    conform (ds.getD i .text) (r.getD i .na) = true := by
  induction ds generalizing r i with
  | nil => simp at hd
  | cons d ds ih =>
      cases r with
      | nil => simp at hr
      | cons v r =>
          rw [List.zip_cons_cons, List.all_cons, Bool.and_eq_true] at h
          cases i with
          | zero => simpa using h.1
          | succ i =>
              simp only [List.getD_cons_succ]
              exact ih r h.2 i (by simpa using hd) (by simpa using hr)

/-- In a well-formed table, the cell of any row at a valid schema index
conforms to that column's storage type. -/
theorem wf_cell_conform (t : Table) (hwf : t.wf = true) (r : List Value)
    (hr : r ∈ t.rows) (i : Nat) (hi : i < t.cols.length) :
    conform (t.dtypes.getD i .text) (r.getD i .na) = true := by
  rw [Table.wf, Bool.and_eq_true, List.all_eq_true] at hwf
  obtain ⟨hdl, hrows⟩ := hwf
  have hrow := hrows r hr
  rw [Bool.and_eq_true] at hrow
  refine zip_conform t.dtypes r hrow.2 i ?_ ?_
  · rw [show t.dtypes.length = t.cols.length by simpa using hdl]
    exact hi
  · rw [show r.length = t.cols.length by simpa using hrow.1]
    exact hi

/-- Dispatch of a name outside the supported set always falls through
to the unknown-function error. -/
theorem unknownFuncAux (t : Table) (f : String) (args : List String)
    (h : f ∉ supportedFuncs) :
    dispatch t f args =
      mkOut t (.ok (.str ("❌ Function '" ++ f ++ "' not supported. Type 'help' for options."))) := by
  simp only [supportedFuncs, singleColFuncs, List.mem_append, List.mem_cons,
    List.not_mem_nil, or_false, not_or] at h
  simp only [dispatch, singleColFuncs, List.mem_cons, List.not_mem_nil, or_false]
  simp [h]

/-- After a successful parse of a nonempty, non-`help` command, `run` is
the dispatcher applied to the split arguments. -/
theorem run_eq_dispatch (t : Table) (c f : String) (a : Option String)
    (h0 : pyStrip c ≠ "") (h1 : pyStrip c ≠ "help")
    (hp : parseCommand (pyStrip c) = some (f, a)) :
    run t c = dispatch t f (splitArgs a) := by
  simp only [run, if_neg h0, if_neg h1, hp]

/-- The `plot` branch leaves the table untouched. -/
theorem runPlot_df (t : Table) (args : List String) : (runPlot t args).df = t := by
  unfold runPlot
  repeat' split
  all_goals rfl

/-- The `hist` branch leaves the table untouched. -/
theorem runHist_df (t : Table) (args : List String) : (runHist t args).df = t := by
  unfold runHist
  repeat' split
  all_goals rfl

/-- The `scatter` branch leaves the table untouched. -/
theorem runScatter_df (t : Table) (args : List String) : (runScatter t args).df = t := by
  unfold runScatter
  repeat' split
  all_goals rfl

/-- The `box` branch leaves the table untouched. -/
theorem runBox_df (t : Table) (args : List String) : (runBox t args).df = t := by
  unfold runBox
  repeat' split
  all_goals rfl

/-- No dispatch branch changes the analyzer's table. -/
theorem dispatch_df (t : Table) (f : String) (args : List String) :
    (dispatch t f args).df = t := by
  unfold dispatch
  by_cases h : f = "head"
  · rw [if_pos h]; rfl
  rw [if_neg h]
  by_cases h : f = "tail"
  · rw [if_pos h]; rfl
  rw [if_neg h]
  by_cases h : f = "info"
  · rw [if_pos h]; rfl
  rw [if_neg h]
  by_cases h : f = "describe"
  · rw [if_pos h]; rfl
  rw [if_neg h]
  by_cases h : f = "shape"
  · rw [if_pos h]; rfl
  rw [if_neg h]
  by_cases h : f = "columns"
  · rw [if_pos h]; rfl
  rw [if_neg h]
  by_cases h : f = "dtypes"
  · rw [if_pos h]; rfl
  rw [if_neg h]
  by_cases h : f = "missing"
  · rw [if_pos h]; rfl
  rw [if_neg h]
  by_cases h : f = "corr"
  · rw [if_pos h]; rfl
  rw [if_neg h]
  by_cases h : f = "cov"
  · rw [if_pos h]; rfl
  rw [if_neg h]
  by_cases h : f ∈ singleColFuncs
  · rw [if_pos h]; rfl
  rw [if_neg h]
  by_cases h : f = "groupby"
  · rw [if_pos h]; rfl
  rw [if_neg h]
  by_cases h : f = "filter"
  · rw [if_pos h]; rfl
  rw [if_neg h]
  by_cases h : f = "plot"
  · rw [if_pos h]; exact runPlot_df t args
  rw [if_neg h]
  by_cases h : f = "hist"
  · rw [if_pos h]; exact runHist_df t args
  rw [if_neg h]
  by_cases h : f = "scatter"
  · rw [if_pos h]; exact runScatter_df t args
  rw [if_neg h]
  by_cases h : f = "box"
  · rw [if_pos h]; exact runBox_df t args
  rw [if_neg h]
  by_cases h : f = "heatmap"
  · rw [if_pos h]
  rw [if_neg h]
  rfl

/-- C7: no command mutates the loaded table — for every command string
the analyzer's in-memory table after `run` is the table it started with
(in particular `filter` only returns a derived table in its result). -/
theorem c7_no_mutation (t : Table) (c : String) : (run t c).df = t := by
  simp only [run]
  by_cases h1 : pyStrip c = ""
  · rw [if_pos h1]; rfl
  rw [if_neg h1]
  by_cases h2 : pyStrip c = "help"
  · rw [if_pos h2]; rfl
  rw [if_neg h2]
  cases hp : parseCommand (pyStrip c) with
  | none => rfl
  | some fa =>
      obtain ⟨f, a⟩ := fa
      exact dispatch_df t f (splitArgs a)

/-- C10: only the exact bare word `help` (after trimming) returns the
fixed help text; `help()` with parentheses is not recognized as the help
command and falls through dispatch to the unknown-function error. -/
theorem c10_help_exact_word :
    (∀ t : Table, run t "help" = mkOut t (.ok (.str helpText))) ∧
    (∀ (t : Table) (s : String), pyStrip s = "help" → run t s = mkOut t (.ok (.str helpText))) ∧
    (∀ t : Table, run t "help()" =
      mkOut t (.ok (.str "❌ Function 'help' not supported. Type 'help' for options."))) := by
  refine ⟨fun t => rfl, fun t s hs => ?_, fun t => ?_⟩
  · simp only [run, hs]
    rfl
  · rfl

/-- Witness for C10 at a concrete command needing trimming. -/
theorem c10_witness : run exTable "  help  " = mkOut exTable (.ok (.str helpText)) :=
  c10_help_exact_word.2.1 exTable "  help  " (by decide)

/-- C9: a well-formed command whose function name is unsupported returns
the unknown-function error naming the function and pointing to `help`,
whatever the argument list. -/
theorem c9_unknown_function (t : Table) (c f : String) (a : Option String)
    (h0 : pyStrip c ≠ "") (h1 : pyStrip c ≠ "help")
    (hp : parseCommand (pyStrip c) = some (f, a)) (hf : f ∉ supportedFuncs) :
    run t c =
      mkOut t (.ok (.str ("❌ Function '" ++ f ++ "' not supported. Type 'help' for options."))) := by
  rw [run_eq_dispatch t c f a h0 h1 hp]
  exact unknownFuncAux t f (splitArgs a) hf

/-- Witness for C9 at a concrete unsupported command. -/
theorem c9_witness :
    run exTable "foo(1,2)" =
      mkOut exTable (.ok (.str "❌ Function 'foo' not supported. Type 'help' for options.")) := by
  rw [c9_unknown_function exTable "foo(1,2)" "foo" (some "1,2")
    (by decide) (by decide) (by decide) (by decide)]
  decide

/-- Counterexample to C3 as stated: `head(-1)` on a three-row table
returns two rows — neither "the first `-1` rows" (none) nor all rows. -/
theorem c3_counterexample :
    run t3 "head(-1)" =
      mkOut t3 (.ok (.table ⟨["a"], [.numeric], [[.num 1], [.num 2]]⟩)) ∧
    ¬ ([[Value.num 1], [Value.num 2]] = t3.rows.take (Int.toNat (-1))) ∧
    ¬ ([[Value.num 1], [Value.num 2]] = t3.rows) := by
  refine ⟨by rfl, by decide, by decide⟩

/-- C3 (amended): for a nonnegative integer argument `n`, `head`/`tail`
return exactly the first/last `n` rows in original order (all rows when
`n` exceeds the row count); with no argument `n` defaults to 5; a
non-integer argument yields an error string; a negative `n` instead
returns all rows except the last/first `|n|`. -/
theorem c3_head_tail_amended :
    (∀ (t : Table) (s : String) (rest : List String) (n : Int),
      pyInt? s = some n → 0 ≤ n →
      runHead t (s :: rest) = .ok (.table ⟨t.cols, t.dtypes, t.rows.take n.toNat⟩)) ∧
    (∀ (t : Table) (s : String) (rest : List String) (n : Int),
      pyInt? s = some n → 0 ≤ n → (t.rows.length : Int) ≤ n →
      runHead t (s :: rest) = .ok (.table ⟨t.cols, t.dtypes, t.rows⟩)) ∧
    (∀ t : Table, runHead t [] = .ok (.table ⟨t.cols, t.dtypes, t.rows.take 5⟩)) ∧
    (∀ (t : Table) (s : String) (rest : List String),
      pyInt? s = none → runHead t (s :: rest) = .ok (.str "❌ head(n) expects integer n")) ∧
    (∀ (t : Table) (s : String) (rest : List String) (n : Int),
      pyInt? s = some n → 0 ≤ n →
      runTail t (s :: rest) =
        .ok (.table ⟨t.cols, t.dtypes, t.rows.drop (t.rows.length - n.toNat)⟩)) ∧
    (∀ (t : Table) (s : String) (rest : List String) (n : Int),
      pyInt? s = some n → 0 ≤ n → (t.rows.length : Int) ≤ n →
      runTail t (s :: rest) = .ok (.table ⟨t.cols, t.dtypes, t.rows⟩)) ∧
    (∀ t : Table, runTail t [] =
      .ok (.table ⟨t.cols, t.dtypes, t.rows.drop (t.rows.length - 5)⟩)) ∧
    (∀ (t : Table) (s : String) (rest : List String),
      pyInt? s = none → runTail t (s :: rest) = .ok (.str "❌ tail(n) expects integer n")) ∧
    (∀ (t : Table) (s : String) (rest : List String) (n : Int),
      pyInt? s = some n → n < 0 →
      runHead t (s :: rest) =
        .ok (.table ⟨t.cols, t.dtypes, t.rows.take (t.rows.length - n.natAbs)⟩)) ∧
    (∀ (t : Table) (s : String) (rest : List String) (n : Int),
      pyInt? s = some n → n < 0 →
      runTail t (s :: rest) = .ok (.table ⟨t.cols, t.dtypes, t.rows.drop n.natAbs⟩)) ∧
    (∀ (t : Table) (args : List String), dispatch t "head" args = mkOut t (runHead t args)) ∧
    (∀ (t : Table) (args : List String), dispatch t "tail" args = mkOut t (runTail t args)) := by
  refine ⟨?_, ?_, fun t => rfl, ?_, ?_, ?_, fun t => rfl, ?_, ?_, ?_,
    fun t args => rfl, fun t args => rfl⟩
  · intro t s rest n hp hn
    simp [runHead, hp, headTable, if_pos hn]
  · intro t s rest n hp hn hle
    have hlen : t.rows.length ≤ n.toNat := by omega
    simp [runHead, hp, headTable, if_pos hn, List.take_of_length_le hlen]
  · intro t s rest hp
    simp [runHead, hp]
  · intro t s rest n hp hn
    simp [runTail, hp, tailTable, if_pos hn]
  · intro t s rest n hp hn hle
    have hlen : t.rows.length - n.toNat = 0 := by omega
    simp [runTail, hp, tailTable, if_pos hn, hlen]
  · intro t s rest hp
    simp [runTail, hp]
  · intro t s rest n hp hn
    simp [runHead, hp, headTable, if_neg (by omega : ¬ (0 : Int) ≤ n)]
  · intro t s rest n hp hn
    simp [runTail, hp, tailTable, if_neg (by omega : ¬ (0 : Int) ≤ n)]

/-- Witness for C3 (amended) at concrete inputs. -/
theorem c3_witness :
    runHead t3 ["2"] = .ok (.table ⟨["a"], [.numeric], [[.num 1], [.num 2]]⟩) ∧
    runTail t3 ["7"] = .ok (.table t3) := by
  constructor
  · rw [c3_head_tail_amended.1 t3 "2" [] 2 (by decide) (by decide)]
    decide
  · rw [c3_head_tail_amended.2.2.2.2.2.1 t3 "7" [] 7 (by decide) (by decide) (by decide)]

/-- A single-column statistic name reaches the single-column branch. -/
theorem dispatch_single (t : Table) (f : String) (args : List String)
    (h : f ∈ singleColFuncs) :
    dispatch t f args = mkOut t (dispatchSingle t f args) := by
  simp only [singleColFuncs, List.mem_cons, List.not_mem_nil, or_false] at h
  rcases h with h|h|h|h|h|h|h|h|h|h|h|h <;> subst h <;> rfl

/-- C2: for every column-referencing command (single-column statistics,
groupby, filter, plot, hist, scatter, box), a missing referenced column
makes `run` return an error string naming the first missing column, with
no computation and no chart rendered; the validator skips empty
candidate entries and reports the first nonempty missing one. -/
theorem c2_missing_column :
    (∀ (t : Table) (cands : List String) (c : String),
      firstMissing t cands = some c →
      validateColumns t cands = some ("❌ Column '" ++ c ++ "' not found.")) ∧
    (∀ (t : Table) (cands : List String),
      firstMissing t cands = none → validateColumns t cands = none) ∧
    (∀ (t : Table) (f a c : String), f ∈ singleColFuncs →
      firstMissing t [a] = some c →
      dispatch t f [a] = mkOut t (.ok (.str ("❌ Column '" ++ c ++ "' not found.")))) ∧
    (∀ (t : Table) (g ag tc c : String),
      firstMissing t [g, tc] = some c →
      dispatch t "groupby" [g, ag, tc] =
        mkOut t (.ok (.str ("❌ Column '" ++ c ++ "' not found.")))) ∧
    (∀ (t : Table) (col op v c : String),
      firstMissing t [col] = some c →
      dispatch t "filter" [col, op, v] =
        mkOut t (.ok (.str ("❌ Column '" ++ c ++ "' not found.")))) ∧
    (∀ (t : Table) (a c : String),
      firstMissing t [a] = some c →
      dispatch t "plot" [a] = mkOut t (.ok (.str ("❌ Column '" ++ c ++ "' not found."))) ∧
      dispatch t "hist" [a] = mkOut t (.ok (.str ("❌ Column '" ++ c ++ "' not found."))) ∧
      dispatch t "box" [a] = mkOut t (.ok (.str ("❌ Column '" ++ c ++ "' not found.")))) ∧
    (∀ (t : Table) (x y c : String),
      firstMissing t [x, y] = some c →
      dispatch t "scatter" [x, y] =
        mkOut t (.ok (.str ("❌ Column '" ++ c ++ "' not found.")))) := by
  refine ⟨?_, ?_, ?_, ?_, ?_, ?_, ?_⟩
  · intro t cands c h
    rw [validate_firstMissing, h]
    rfl
  · intro t cands h
    rw [validate_firstMissing, h]
    rfl
  · intro t f a c hf h
    have hv : validateColumns t [a] = some ("❌ Column '" ++ c ++ "' not found.") := by
      rw [validate_firstMissing, h]
      rfl
    rw [dispatch_single t f [a] hf]
    simp only [dispatchSingle, hv]
  · intro t g ag tc c h
    have hv : validateColumns t [g, tc] = some ("❌ Column '" ++ c ++ "' not found.") := by
      rw [validate_firstMissing, h]
      rfl
    have hb : dispatch t "groupby" [g, ag, tc] = mkOut t (dispatchGroupby t [g, ag, tc]) := rfl
    rw [hb]
    simp only [dispatchGroupby, hv]
  · intro t col op v c h
    have hv : validateColumns t [col] = some ("❌ Column '" ++ c ++ "' not found.") := by
      rw [validate_firstMissing, h]
      rfl
    have hb : dispatch t "filter" [col, op, v] = mkOut t (dispatchFilter t [col, op, v]) := rfl
    rw [hb]
    simp only [dispatchFilter, hv]
  · intro t a c h
    have hv : validateColumns t [a] = some ("❌ Column '" ++ c ++ "' not found.") := by
      rw [validate_firstMissing, h]
      rfl
    refine ⟨?_, ?_, ?_⟩
    · have hb : dispatch t "plot" [a] = runPlot t [a] := rfl
      rw [hb]
      simp only [runPlot, hv]
    · have hb : dispatch t "hist" [a] = runHist t [a] := rfl
      rw [hb]
      simp only [runHist, hv]
    · have hb : dispatch t "box" [a] = runBox t [a] := rfl
      rw [hb]
      simp only [runBox, hv]
  · intro t x y c h
    have hv : validateColumns t [x, y] = some ("❌ Column '" ++ c ++ "' not found.") := by
      rw [validate_firstMissing, h]
      rfl
    have hb : dispatch t "scatter" [x, y] = runScatter t [x, y] := rfl
    rw [hb]
    simp only [runScatter, hv]

/-- Witness for C2: the spec's own example, `mean(age)` on a table with
no `age` column. -/
theorem c2_witness :
    dispatch exTable "mean" ["age"] =
      mkOut exTable (.ok (.str "❌ Column 'age' not found.")) := by
  rw [c2_missing_column.2.2.1 exTable "mean" "age" "age" (by decide) (by decide)]
  rfl

/-- Mapping an everywhere-defined optional function over keys collects
each key with its value. -/
theorem mapM_pairs (f : Value → Option Value) (l : List Value)
    (h : ∀ k ∈ l, (f k).isSome = true) :
    (l.mapM (fun k => (f k).map (fun v => (k, v)))) =
      some (l.map (fun k => (k, (f k).getD .na))) := by
  induction l with
  | nil => rfl
  | cons a l ih =>
      obtain ⟨v, hv⟩ := Option.isSome_iff_exists.mp (h a (List.mem_cons_self a l))
      rw [List.mapM_cons, ih (fun k hk => h k (List.mem_cons_of_mem a hk))]
      simp [hv]

/-- On the valid groupby path the dispatcher pairs every distinct group
key with the aggregate of its group's target entries. -/
theorem groupby_ok (t : Table) (g ag tc : String) (gi ti : Nat)
    (hv : firstMissing t [g, tc] = none) (hag : ag ∈ aggSet)
    (hgi : colIndex? t g = some gi) (hti : colIndex? t tc = some ti)
    (hall : ∀ k ∈ groupKeys t gi, (applyAgg ag (groupVals t gi ti k)).isSome = true) :
    dispatchGroupby t [g, ag, tc] =
      .ok (.vseries ((groupKeys t gi).map
        (fun k => (k, (applyAgg ag (groupVals t gi ti k)).getD .na)))) := by
  have hv2 : validateColumns t [g, tc] = none := by
    rw [validate_firstMissing, hv]
    rfl
  simp only [dispatchGroupby, hv2, hgi, hti]
  rw [if_pos hag, mapM_pairs _ _ hall]

/-- The NaN-skipping mean of the two `eng` salaries. -/
theorem vMean_eng : vMean [Value.num 100, Value.num 200] = some (.num 150) := by
  have h2 : nums? [Value.num 100, Value.num 200] = some [100, 200] := by decide
  rw [vMean, h2]
  simp only [Option.map_some']
  rw [if_neg (by decide : ¬ ([100, 200] : List Rat) = [])]
  norm_num [List.sum_cons, List.sum_nil]

/-- The NaN-skipping mean of the single `sales` salary. -/
theorem vMean_sales : vMean [Value.num 50] = some (.num 50) := by
  have h2 : nums? [Value.num 50] = some [50] := by decide
  rw [vMean, h2]
  simp only [Option.map_some']
  rw [if_neg (by decide : ¬ ([50] : List Rat) = [])]
  norm_num [List.sum_cons, List.sum_nil]

/-- C5: `groupby(group_col, agg, target_col)` demands exactly 3
arguments, validates both column names, rejects an aggregate outside
{mean, sum, min, max, count, median, std, var} with an error and no
aggregation; on the valid path it returns, per distinct group key, the
aggregate of the target column over that group's rows — on the spec's
example table, `groupby(department, mean, salary)` yields
`eng: 150, sales: 50`. -/
theorem c5_groupby :
    (∀ (t : Table) (args : List String), args.length ≠ 3 →
      dispatchGroupby t args = .ok (.str "❌ groupby(group_col, agg, target_col) required")) ∧
    (∀ (t : Table) (g ag tc c : String),
      firstMissing t [g, tc] = some c →
      dispatchGroupby t [g, ag, tc] = .ok (.str ("❌ Column '" ++ c ++ "' not found."))) ∧
    (∀ (t : Table) (g ag tc : String),
      firstMissing t [g, tc] = none → ag ∉ aggSet →
      dispatchGroupby t [g, ag, tc] =
        .ok (.str "❌ Unsupported agg. Use mean,sum,min,max,count,median,std,var")) ∧
    (∀ (t : Table) (g ag tc : String) (gi ti : Nat),
      firstMissing t [g, tc] = none → ag ∈ aggSet →
      colIndex? t g = some gi → colIndex? t tc = some ti →
      (∀ k ∈ groupKeys t gi, (applyAgg ag (groupVals t gi ti k)).isSome = true) →
      dispatchGroupby t [g, ag, tc] =
        .ok (.vseries ((groupKeys t gi).map
          (fun k => (k, (applyAgg ag (groupVals t gi ti k)).getD .na))))) ∧
    run exTable "groupby(department, mean, salary)" =
      mkOut exTable (.ok (.vseries
        [(.str "eng", .num 150), (.str "sales", .num 50)])) := by
  refine ⟨?_, ?_, ?_, fun t g ag tc gi ti hv hag hgi hti hall =>
    groupby_ok t g ag tc gi ti hv hag hgi hti hall, ?_⟩
  · intro t args h
    rcases args with _ | ⟨a, _ | ⟨b, _ | ⟨c, _ | ⟨d, rest⟩⟩⟩⟩ <;> first | rfl | simp at h
  · intro t g ag tc c h
    have hv : validateColumns t [g, tc] = some ("❌ Column '" ++ c ++ "' not found.") := by
      rw [validate_firstMissing, h]
      rfl
    simp only [dispatchGroupby, hv]
  · intro t g ag tc hv hag
    have hv2 : validateColumns t [g, tc] = none := by
      rw [validate_firstMissing, hv]
      rfl
    simp only [dispatchGroupby, hv2]
    rw [if_neg hag]
  · have hrun : run exTable "groupby(department, mean, salary)" =
        mkOut exTable (dispatchGroupby exTable ["department", "mean", "salary"]) := rfl
    have hkeys : groupKeys exTable 0 = [.str "eng", .str "sales"] := by decide
    have hge : groupVals exTable 0 1 (.str "eng") = [.num 100, .num 200] := by decide
    have hgs : groupVals exTable 0 1 (.str "sales") = [.num 50] := by decide
    have ha : ∀ s, applyAgg "mean" s = vMean s := fun s => rfl
    have hall : ∀ k ∈ groupKeys exTable 0,
        (applyAgg "mean" (groupVals exTable 0 1 k)).isSome = true := by
      intro k hk
      rw [hkeys] at hk
      fin_cases hk
      · rw [ha, hge, vMean_eng]
        rfl
      · rw [ha, hgs, vMean_sales]
        rfl
    rw [hrun, groupby_ok exTable "department" "mean" "salary" 0 1
      (by decide) (by decide) (by decide) (by decide) hall, hkeys]
    simp only [List.map_cons, List.map_nil, ha, hge, hgs, vMean_eng, vMean_sales]
    rfl

/-- Witness for C5 at concrete inputs: a wrong argument count and an
unsupported aggregate. -/
theorem c5_witness :
    dispatchGroupby exTable ["department"] =
      .ok (.str "❌ groupby(group_col, agg, target_col) required") ∧
    dispatchGroupby exTable ["department", "frob", "salary"] =
      .ok (.str "❌ Unsupported agg. Use mean,sum,min,max,count,median,std,var") := by
  constructor
  · exact c5_groupby.1 exTable ["department"] (by decide)
  · exact c5_groupby.2.2.1 exTable "department" "frob" "salary" (by decide) (by decide)

/-- Counterexample to C8 as stated: `scatter(salary,salary)` has two
equal (not distinct) column arguments, yet the code renders the chart
and returns the confirmation string instead of an error. -/
theorem c8_counterexample :
    run exTable "scatter(salary,salary)" =
      ⟨.ok (.str "📊 Scatter plot displayed for salary vs salary"),
        [.scatterE "salary" "salary"], exTable⟩ := by
  decide

/-- C8 (amended): `scatter` requires exactly two schema-valid column
names but does not require them to be distinct — a wrong argument count
or a missing nonempty column yields an error string with no chart, and
any two schema columns (equal or not) render the chart and return the
confirmation string. -/
theorem c8_scatter_amended :
    (∀ (t : Table) (args : List String), args.length ≠ 2 →
      runScatter t args = mkOut t (.ok (.str "❌ scatter(x, y) expects two columns"))) ∧
    (∀ (t : Table) (x y c : String), firstMissing t [x, y] = some c →
      runScatter t [x, y] = mkOut t (.ok (.str ("❌ Column '" ++ c ++ "' not found.")))) ∧
    (∀ (t : Table) (x y : String), x ∈ t.cols → y ∈ t.cols →
      runScatter t [x, y] =
        ⟨.ok (.str ("📊 Scatter plot displayed for " ++ x ++ " vs " ++ y)),
          [.scatterE x y], t⟩) ∧
    (∀ (t : Table) (args : List String), dispatch t "scatter" args = runScatter t args) := by
  refine ⟨?_, ?_, ?_, fun t args => rfl⟩
  · intro t args h
    rcases args with _ | ⟨a, _ | ⟨b, _ | ⟨c, rest⟩⟩⟩ <;> first | rfl | simp at h
  · intro t x y c h
    have hv : validateColumns t [x, y] = some ("❌ Column '" ++ c ++ "' not found.") := by
      rw [validate_firstMissing, h]
      rfl
    simp only [runScatter, hv]
  · intro t x y hx hy
    have hv2 : validateColumns t [x, y] = none := by
      rw [validate_firstMissing,
        firstMissing_none t [x, y] (by
          intro c hc
          simp only [List.mem_cons, List.not_mem_nil, or_false] at hc
          rcases hc with rfl | rfl
          · exact hx
          · exact hy)]
      rfl
    simp only [runScatter, hv2]
    rw [if_pos ⟨hx, hy⟩]

/-- Witness for C8 (amended) at concrete inputs: two distinct valid
columns render, a single argument errors. -/
theorem c8_witness :
    runScatter exTable ["department", "salary"] =
      ⟨.ok (.str "📊 Scatter plot displayed for department vs salary"),
        [.scatterE "department" "salary"], exTable⟩ ∧
    runScatter exTable ["salary"] =
      mkOut exTable (.ok (.str "❌ scatter(x, y) expects two columns")) := by
  constructor
  · rw [c8_scatter_amended.2.2.1 exTable "department" "salary" (by decide) (by decide)]
    rfl
  · exact c8_scatter_amended.1 exTable ["salary"] (by decide)

/- ## Filter lemmas -/

/-- Validation of a single present column passes. -/
theorem filter_validate_pass (t : Table) (col : String) (h : col ∈ t.cols) :
    validateColumns t [col] = none := by
  have hf : firstMissing t [col] = none := by
    refine firstMissing_none t [col] ?_
    intro c hc
    simp only [List.mem_cons, List.not_mem_nil, or_false] at hc
    exact hc ▸ h
  rw [validate_firstMissing, hf]
  rfl

/-- The shape of the filter branch when every elementwise comparison is
defined: the result is the schema-preserving table of rows whose entry
compares `true`. -/
theorem filter_ok (t : Table) (col op v : String) (i : Nat) (o : Op) (co : Coerced)
    (hi : colIndex? t col = some i)
    (hop : parseOp op = some o)
    (hco : coerceFor (t.dtypes.getD i .text == DType.numeric) v = co)
    (hdt : (isOrd o && (t.dtypes.getD i .text == DType.numeric) && co.isSv) = false)
    (hall : ∀ r ∈ t.rows, (evalOp o (r.getD i .na) co).isSome = true) :
    dispatchFilter t [col, op, v] = .ok (.table ⟨t.cols, t.dtypes,
      t.rows.filter (fun r => evalOp o (r.getD i .na) co == some true)⟩) := by
  have hv2 : validateColumns t [col] = none :=
    filter_validate_pass t col (colIndex?_mem t col i hi)
  have hmask : ((t.rows.map (fun r => evalOp o (r.getD i .na) co)).all Option.isSome) = true := by
    rw [List.all_eq_true]
    intro x hx
    obtain ⟨r, hr, rfl⟩ := List.mem_map.mp hx
    exact hall r hr
  simp only [dispatchFilter, hv2, hi, hop, hco]
  rw [if_neg (by rw [hdt]; exact Bool.false_ne_true), if_pos hmask]

/-- The shape of the filter branch when the dtype-level comparison is
invalid (ordering a numeric column against an uncoercible string):
`TypeError`. -/
theorem filter_raise_dtype (t : Table) (col op v : String) (i : Nat) (o : Op)
    (hi : colIndex? t col = some i)
    (hop : parseOp op = some o)
    (hnum : (t.dtypes.getD i .text == DType.numeric) = true)
    (hco : coerceFor (t.dtypes.getD i .text == DType.numeric) v = .sv v)
    (hord : isOrd o = true) :
    dispatchFilter t [col, op, v] = .error .typeError := by
  have hv2 : validateColumns t [col] = none :=
    filter_validate_pass t col (colIndex?_mem t col i hi)
  simp only [dispatchFilter, hv2, hi, hop, hco]
  rw [if_pos (by rw [hord, hnum]; rfl)]

/-- Numeric column, coercion succeeded with a finite number: the filter
keeps exactly the rows whose entry satisfies the operator against that
number. -/
theorem filter_numeric_ok (t : Table) (col op v : String) (i : Nat) (o : Op) (q : Rat)
    (hwf : t.wf = true) (hi : colIndex? t col = some i)
    (hdt : t.dtypes.getD i .text = DType.numeric)
    (hop : parseOp op = some o) (hpf : pyFloat? v = some (.num q)) :
    dispatchFilter t [col, op, v] = .ok (.table ⟨t.cols, t.dtypes,
      t.rows.filter (fun r => numPred o q (r.getD i .na))⟩) := by
  have hnum : (t.dtypes.getD i .text == DType.numeric) = true := by
    rw [hdt]
    rfl
  have hco : coerceFor (t.dtypes.getD i .text == DType.numeric) v = .fl (.num q) := by
    rw [hnum]
    simp [coerceFor, hpf]
  have hconf : ∀ r ∈ t.rows, conform (t.dtypes.getD i .text) (r.getD i .na) = true :=
    fun r hr => wf_cell_conform t hwf r hr i (colIndex?_lt t col i hi)
  have hall : ∀ r ∈ t.rows, (evalOp o (r.getD i .na) (.fl (.num q))).isSome = true := by
    intro r hr
    have hc := hconf r hr
    rw [hdt] at hc
    cases hcell : r.getD i .na with
    | num a => rfl
    | na => rfl
    | str s => rw [hcell] at hc; simp [conform] at hc
    | rt x => rw [hcell] at hc; simp [conform] at hc
  rw [filter_ok t col op v i o (.fl (.num q)) hi hop hco (by simp [Coerced.isSv]) hall]
  have hfc : t.rows.filter (fun r => evalOp o (r.getD i .na) (.fl (.num q)) == some true) =
      t.rows.filter (fun r => numPred o q (r.getD i .na)) := by
    apply List.filter_congr
    intro r hr
    have hc := hconf r hr
    rw [hdt] at hc
    cases hcell : r.getD i .na with
    | num a =>
        show (some (cmpNum o a q) == some true) = cmpNum o a q
        cases cmpNum o a q <;> rfl
    | na =>
        show (some (o == Op.ne) == some true) = (o == Op.ne)
        cases (o == Op.ne) <;> rfl
    | str s => rw [hcell] at hc; simp [conform] at hc
    | rt x => rw [hcell] at hc; simp [conform] at hc
  rw [hfc]

/-- Text column: the value stays a raw string and the filter keeps the
rows whose entry compares `true` as text; an ordering comparison demands
no missing entries (a NaN in an object column makes pandas raise). -/
theorem filter_text_ok (t : Table) (col op v : String) (i : Nat) (o : Op)
    (hwf : t.wf = true) (hi : colIndex? t col = some i)
    (hdt : t.dtypes.getD i .text = DType.text)
    (hop : parseOp op = some o)
    (hna : isOrd o = false ∨ ∀ r ∈ t.rows, (r.getD i .na).isNA = false) :
    dispatchFilter t [col, op, v] = .ok (.table ⟨t.cols, t.dtypes,
      t.rows.filter (fun r => strPred o v (r.getD i .na))⟩) := by
  have hnum : (t.dtypes.getD i .text == DType.numeric) = false := by
    rw [hdt]
    rfl
  have hco : coerceFor (t.dtypes.getD i .text == DType.numeric) v = .sv v := by
    rw [hnum]
    rfl
  have hconf : ∀ r ∈ t.rows, conform (t.dtypes.getD i .text) (r.getD i .na) = true :=
    fun r hr => wf_cell_conform t hwf r hr i (colIndex?_lt t col i hi)
  have hall : ∀ r ∈ t.rows, (evalOp o (r.getD i .na) (.sv v)).isSome = true := by
    intro r hr
    have hc := hconf r hr
    rw [hdt] at hc
    cases hcell : r.getD i .na with
    | str s => rfl
    | na =>
        rcases hna with hord | hnone
        · show (crossCmp o).isSome = true
          rw [crossCmp, if_neg (by rw [hord]; exact Bool.false_ne_true)]
          rfl
        · have := hnone r hr
          rw [hcell] at this
          simp [Value.isNA] at this
    | num a => rw [hcell] at hc; simp [conform] at hc
    | rt x => rw [hcell] at hc; simp [conform] at hc
  rw [filter_ok t col op v i o (.sv v) hi hop hco
    (by rw [hnum, Bool.and_false, Bool.false_and]) hall]
  have hfc : t.rows.filter (fun r => evalOp o (r.getD i .na) (.sv v) == some true) =
      t.rows.filter (fun r => strPred o v (r.getD i .na)) := by
    apply List.filter_congr
    intro r hr
    have hc := hconf r hr
    rw [hdt] at hc
    cases hcell : r.getD i .na with
    | str s =>
        show (some (cmpStr o s v) == some true) = cmpStr o s v
        cases cmpStr o s v <;> rfl
    | na =>
        rcases hna with hord | hnone
        · show (crossCmp o == some true) = strPred o v .na
          rw [crossCmp, if_neg (by rw [hord]; exact Bool.false_ne_true)]
          show (some (o == Op.ne) == some true) = (o == Op.ne)
          cases (o == Op.ne) <;> rfl
        · have := hnone r hr
          rw [hcell] at this
          simp [Value.isNA] at this
    | num a => rw [hcell] at hc; simp [conform] at hc
    | rt x => rw [hcell] at hc; simp [conform] at hc
  rw [hfc]

/-- Numeric column, coercion failed, equality comparison: a float column
never equals a string, so `==` selects no rows. -/
theorem filter_sv_eq (t : Table) (col op v : String) (i : Nat)
    (hwf : t.wf = true) (hi : colIndex? t col = some i)
    (hdt : t.dtypes.getD i .text = DType.numeric)
    (hop : parseOp op = some .eq) (hpf : pyFloat? v = none) :
    dispatchFilter t [col, op, v] = .ok (.table ⟨t.cols, t.dtypes, []⟩) := by
  have hnum : (t.dtypes.getD i .text == DType.numeric) = true := by
    rw [hdt]
    rfl
  have hco : coerceFor (t.dtypes.getD i .text == DType.numeric) v = .sv v := by
    rw [hnum]
    simp [coerceFor, hpf]
  have hconf : ∀ r ∈ t.rows, conform (t.dtypes.getD i .text) (r.getD i .na) = true :=
    fun r hr => wf_cell_conform t hwf r hr i (colIndex?_lt t col i hi)
  have hall : ∀ r ∈ t.rows, (evalOp .eq (r.getD i .na) (.sv v)).isSome = true := by
    intro r hr
    have hc := hconf r hr
    rw [hdt] at hc
    cases hcell : r.getD i .na with
    | num a => rfl
    | na => rfl
    | str s => rw [hcell] at hc; simp [conform] at hc
    | rt x => rw [hcell] at hc; simp [conform] at hc
  rw [filter_ok t col op v i .eq (.sv v) hi hop hco (by rfl) hall]
  have hfc : t.rows.filter (fun r => evalOp .eq (r.getD i .na) (.sv v) == some true) =
      t.rows.filter (fun _ => false) := by
    apply List.filter_congr
    intro r hr
    have hc := hconf r hr
    rw [hdt] at hc
    cases hcell : r.getD i .na with
    | num a => rfl
    | na => rfl
    | str s => rw [hcell] at hc; simp [conform] at hc
    | rt x => rw [hcell] at hc; simp [conform] at hc
  rw [hfc, List.filter_false]

/-- Numeric column, coercion failed, inequality comparison: every row
(NaN included, as in pandas) passes `!=` against a string. -/
theorem filter_sv_ne (t : Table) (col op v : String) (i : Nat)
    (hwf : t.wf = true) (hi : colIndex? t col = some i)
    (hdt : t.dtypes.getD i .text = DType.numeric)
    (hop : parseOp op = some .ne) (hpf : pyFloat? v = none) :
    dispatchFilter t [col, op, v] = .ok (.table ⟨t.cols, t.dtypes, t.rows⟩) := by
  have hnum : (t.dtypes.getD i .text == DType.numeric) = true := by
    rw [hdt]
    rfl
  have hco : coerceFor (t.dtypes.getD i .text == DType.numeric) v = .sv v := by
    rw [hnum]
    simp [coerceFor, hpf]
  have hconf : ∀ r ∈ t.rows, conform (t.dtypes.getD i .text) (r.getD i .na) = true :=
    fun r hr => wf_cell_conform t hwf r hr i (colIndex?_lt t col i hi)
  have hall : ∀ r ∈ t.rows, (evalOp .ne (r.getD i .na) (.sv v)).isSome = true := by
    intro r hr
    have hc := hconf r hr
    rw [hdt] at hc
    cases hcell : r.getD i .na with
    | num a => rfl
    | na => rfl
    | str s => rw [hcell] at hc; simp [conform] at hc
    | rt x => rw [hcell] at hc; simp [conform] at hc
  rw [filter_ok t col op v i .ne (.sv v) hi hop hco (by rfl) hall]
  have hfc : t.rows.filter (fun r => evalOp .ne (r.getD i .na) (.sv v) == some true) =
      t.rows.filter (fun _ => true) := by
    apply List.filter_congr
    intro r hr
    have hc := hconf r hr
    rw [hdt] at hc
    cases hcell : r.getD i .na with
    | num a => rfl
    | na => rfl
    | str s => rw [hcell] at hc; simp [conform] at hc
    | rt x => rw [hcell] at hc; simp [conform] at hc
  rw [hfc, List.filter_true]

/-- Counterexample to C4 as stated: with a numeric column, an ordering
operator and a value that does not coerce to a number, the comparison
raises `TypeError` instead of producing a table of rows "compared as raw
text". -/
theorem c4_counterexample :
    run tPrice "filter(price,<,xy)" = ⟨.error .typeError, [], tPrice⟩ := by
  decide

/-- C4 (amended): `filter(col, op, value)` demands exactly 3 arguments
and a schema column; an operator outside the six yields an error string.
When the column is numeric and the value coerces to a number, the result
is the schema-preserving table of rows whose entry satisfies the
operator against that number (NaN entries satisfy only `!=`); when the
column is textual the value is compared as raw text (ordering
comparisons additionally require no missing entries); when the column is
numeric and the value does not coerce, `==` selects no rows, `!=`
selects every row, and an ordering operator raises `TypeError` rather
than comparing as raw text. -/
theorem c4_filter_amended :
    (∀ (t : Table) (args : List String), args.length ≠ 3 →
      dispatchFilter t args = .ok (.str "❌ filter(col, op, value) required")) ∧
    (∀ (t : Table) (col op v c : String), firstMissing t [col] = some c →
      dispatchFilter t [col, op, v] = .ok (.str ("❌ Column '" ++ c ++ "' not found."))) ∧
    (∀ (t : Table) (col op v : String) (i : Nat),
      colIndex? t col = some i → parseOp op = none →
      dispatchFilter t [col, op, v] =
        .ok (.str "❌ Unsupported operator. Use ==, !=, >, <, >=, <=")) ∧
    (∀ (t : Table) (col op v : String) (i : Nat) (o : Op) (q : Rat),
      t.wf = true → colIndex? t col = some i →
      t.dtypes.getD i .text = DType.numeric →
      parseOp op = some o → pyFloat? v = some (.num q) →
      dispatchFilter t [col, op, v] = .ok (.table ⟨t.cols, t.dtypes,
        t.rows.filter (fun r => numPred o q (r.getD i .na))⟩)) ∧
    (∀ (t : Table) (col op v : String) (i : Nat) (o : Op),
      t.wf = true → colIndex? t col = some i →
      t.dtypes.getD i .text = DType.text → parseOp op = some o →
      (isOrd o = false ∨ ∀ r ∈ t.rows, (r.getD i .na).isNA = false) →
      dispatchFilter t [col, op, v] = .ok (.table ⟨t.cols, t.dtypes,
        t.rows.filter (fun r => strPred o v (r.getD i .na))⟩)) ∧
    (∀ (t : Table) (col op v : String) (i : Nat),
      t.wf = true → colIndex? t col = some i →
      t.dtypes.getD i .text = DType.numeric →
      parseOp op = some .eq → pyFloat? v = none →
      dispatchFilter t [col, op, v] = .ok (.table ⟨t.cols, t.dtypes, []⟩)) ∧
    (∀ (t : Table) (col op v : String) (i : Nat),
      t.wf = true → colIndex? t col = some i →
      t.dtypes.getD i .text = DType.numeric →
      parseOp op = some .ne → pyFloat? v = none →
      dispatchFilter t [col, op, v] = .ok (.table ⟨t.cols, t.dtypes, t.rows⟩)) ∧
    (∀ (t : Table) (col op v : String) (i : Nat) (o : Op),
      colIndex? t col = some i →
      t.dtypes.getD i .text = DType.numeric →
      parseOp op = some o → isOrd o = true → pyFloat? v = none →
      dispatchFilter t [col, op, v] = .error .typeError) ∧
    (∀ (t : Table) (args : List String),
      dispatch t "filter" args = mkOut t (dispatchFilter t args)) := by
  refine ⟨?_, ?_, ?_,
    fun t col op v i o q hwf hi hdt hop hpf =>
      filter_numeric_ok t col op v i o q hwf hi hdt hop hpf,
    fun t col op v i o hwf hi hdt hop hna =>
      filter_text_ok t col op v i o hwf hi hdt hop hna,
    fun t col op v i hwf hi hdt hop hpf =>
      filter_sv_eq t col op v i hwf hi hdt hop hpf,
    fun t col op v i hwf hi hdt hop hpf =>
      filter_sv_ne t col op v i hwf hi hdt hop hpf,
    ?_, fun t args => rfl⟩
  · intro t args h
    rcases args with _ | ⟨a, _ | ⟨b, _ | ⟨c, _ | ⟨d, rest⟩⟩⟩⟩ <;> first | rfl | simp at h
  · intro t col op v c h
    have hv : validateColumns t [col] = some ("❌ Column '" ++ c ++ "' not found.") := by
      rw [validate_firstMissing, h]
      rfl
    simp only [dispatchFilter, hv]
  · intro t col op v i hi hop
    have hv2 : validateColumns t [col] = none :=
      filter_validate_pass t col (colIndex?_mem t col i hi)
    simp only [dispatchFilter, hv2, hi, hop]
  · intro t col op v i o hi hdt hop hord hpf
    have hnum : (t.dtypes.getD i .text == DType.numeric) = true := by
      rw [hdt]
      rfl
    have hco : coerceFor (t.dtypes.getD i .text == DType.numeric) v = .sv v := by
      rw [hnum]
      simp [coerceFor, hpf]
    exact filter_raise_dtype t col op v i o hi hop hnum hco hord

/-- Witness for C4 (amended): the spec's example `filter(salary, >, 75)`
keeps the two `eng` rows in order. -/
theorem c4_witness :
    dispatchFilter exTable ["salary", ">", "75"] =
      .ok (.table ⟨["department", "salary"], [.text, .numeric],
        [[.str "eng", .num 100], [.str "eng", .num 200]]⟩) := by
  rw [c4_filter_amended.2.2.2.1 exTable "salary" ">" "75" 1 .gt 75
    (by decide) (by decide) (by decide) (by decide) (by decide)]
  decide

/-- C6: filtering is idempotent — whenever `filter(col, op, value)`
produces a table, running the same filter on that table returns it
unchanged, rows in the same order. -/
theorem c6_filter_idempotent (t t' : Table) (col op v : String)
    (h : dispatchFilter t [col, op, v] = .ok (.table t')) :
    dispatchFilter t' [col, op, v] = .ok (.table t') := by
  cases hval : validateColumns t [col] with
  | some e =>
      simp only [dispatchFilter, hval] at h
      injection h with h1
      exact Result.noConfusion h1
  | none =>
      cases hidx : colIndex? t col with
      | none =>
          simp only [dispatchFilter, hval, hidx] at h
          exact Except.noConfusion h
      | some i =>
          cases hop : parseOp op with
          | none =>
              simp only [dispatchFilter, hval, hidx, hop] at h
              injection h with h1
              exact Result.noConfusion h1
          | some o =>
              simp only [dispatchFilter, hval, hidx, hop] at h
              by_cases hdt : (isOrd o && (t.dtypes.getD i .text == DType.numeric) &&
                  (coerceFor (t.dtypes.getD i .text == DType.numeric) v).isSv) = true
              · rw [if_pos hdt] at h
                exact Except.noConfusion h
              · rw [if_neg hdt] at h
                by_cases hmask : ((t.rows.map (fun r => evalOp o (r.getD i .na)
                    (coerceFor (t.dtypes.getD i .text == DType.numeric) v))).all
                      Option.isSome) = true
                · rw [if_pos hmask] at h
                  injection h with h1
                  injection h1 with h2
                  subst h2
                  have hdt2 : (isOrd o && (t.dtypes.getD i .text == DType.numeric) &&
                      (coerceFor (t.dtypes.getD i .text == DType.numeric) v).isSv) = false := by
                    revert hdt
                    cases (isOrd o && (t.dtypes.getD i .text == DType.numeric) &&
                      (coerceFor (t.dtypes.getD i .text == DType.numeric) v).isSv) <;> simp
                  have hrows : ∀ r ∈ t.rows,
                      (evalOp o (r.getD i .na)
                        (coerceFor (t.dtypes.getD i .text == DType.numeric) v)).isSome = true := by
                    intro r hr
                    have := List.all_eq_true.mp hmask _
                      (List.mem_map.mpr ⟨r, hr, rfl⟩)
                    exact this
                  have hall2 : ∀ r ∈ t.rows.filter (fun r => evalOp o (r.getD i .na)
                      (coerceFor (t.dtypes.getD i .text == DType.numeric) v) == some true),
                      (evalOp o (r.getD i .na)
                        (coerceFor (t.dtypes.getD i .text == DType.numeric) v)).isSome = true :=
                    fun r hr => hrows r (List.mem_of_mem_filter hr)
                  rw [filter_ok ⟨t.cols, t.dtypes,
                      t.rows.filter (fun r => evalOp o (r.getD i .na)
                        (coerceFor (t.dtypes.getD i .text == DType.numeric) v) == some true)⟩
                    col op v i o (coerceFor (t.dtypes.getD i .text == DType.numeric) v)
                    hidx hop rfl hdt2 hall2]
                  have hself : (t.rows.filter (fun r => evalOp o (r.getD i .na)
                      (coerceFor (t.dtypes.getD i .text == DType.numeric) v) == some true)).filter
                        (fun r => evalOp o (r.getD i .na)
                          (coerceFor (t.dtypes.getD i .text == DType.numeric) v) == some true) =
                      t.rows.filter (fun r => evalOp o (r.getD i .na)
                        (coerceFor (t.dtypes.getD i .text == DType.numeric) v) == some true) :=
                    List.filter_eq_self.mpr (fun r hr => (List.mem_filter.mp hr).2)
                  show Except.ok (Result.table ⟨t.cols, t.dtypes, _⟩) = _
                  rw [hself]
                · rw [if_neg hmask] at h
                  exact Except.noConfusion h

/-- Witness for C6: re-filtering the `salary > 75` result of the spec's
example table returns it unchanged. -/
theorem c6_witness :
    dispatchFilter (⟨["department", "salary"], [.text, .numeric],
        [[.str "eng", .num 100], [.str "eng", .num 200]]⟩ : Table)
      ["salary", ">", "75"] =
    .ok (.table ⟨["department", "salary"], [.text, .numeric],
        [[.str "eng", .num 100], [.str "eng", .num 200]]⟩) :=
  c6_filter_idempotent exTable _ "salary" ">" "75" (by decide)

/-- Counterexample to C1 as stated: `filter(salary,>,abc)` on the
example table raises `TypeError` out of `run` (a float column cannot be
order-compared with an uncoercible string), so `run` does not always
return a value to the caller. -/
theorem c1_counterexample :
    run exTable "filter(salary,>,abc)" = ⟨.error .typeError, [], exTable⟩ := by
  decide

/-- C1 (amended): every recognized failure mode — empty command,
unparseable command, unknown function, wrong argument count, missing
column, unsupported aggregate or operator, non-integer count — is
returned to the caller as a plain descriptive string and aborts nothing;
however type-incompatible delegated comparisons can still raise, so
`run` is not exception-free on every input. -/
theorem c1_error_strings_amended :
    (∀ (t : Table) (c : String), pyStrip c = "" →
      run t c = mkOut t (.ok (.str "❌ Empty command"))) ∧
    (∀ (t : Table) (c : String), pyStrip c ≠ "" →
      parseCommand (pyStrip c) = none →
      run t c = mkOut t (.ok (.str ("❌ Invalid command: " ++ pyStrip c)))) ∧
    (∀ (t : Table) (f : String) (args : List String), f ∉ supportedFuncs →
      dispatch t f args = mkOut t (.ok (.str
        ("❌ Function '" ++ f ++ "' not supported. Type 'help' for options.")))) ∧
    (∀ (t : Table) (f : String) (args : List String), args.length ≠ 1 →
      dispatchSingle t f args =
        .ok (.str ("❌ " ++ f ++ "(col) expects exactly one column"))) ∧
    (∀ (t : Table) (args : List String), args.length ≠ 3 →
      dispatchGroupby t args = .ok (.str "❌ groupby(group_col, agg, target_col) required") ∧
      dispatchFilter t args = .ok (.str "❌ filter(col, op, value) required")) ∧
    (∀ (t : Table) (args : List String), args.length ≠ 1 →
      runPlot t args = mkOut t (.ok (.str "❌ plot(col) expects one column")) ∧
      runHist t args = mkOut t (.ok (.str "❌ hist(col) expects one column")) ∧
      runBox t args = mkOut t (.ok (.str "❌ box(col) expects one column"))) ∧
    (∀ (t : Table) (args : List String), args.length ≠ 2 →
      runScatter t args = mkOut t (.ok (.str "❌ scatter(x, y) expects two columns"))) ∧
    (∀ (t : Table) (cands : List String) (c : String), firstMissing t cands = some c →
      validateColumns t cands = some ("❌ Column '" ++ c ++ "' not found.")) ∧
    (∀ (t : Table) (g ag tc : String), firstMissing t [g, tc] = none → ag ∉ aggSet →
      dispatchGroupby t [g, ag, tc] =
        .ok (.str "❌ Unsupported agg. Use mean,sum,min,max,count,median,std,var")) ∧
    (∀ (t : Table) (col op v : String) (i : Nat), colIndex? t col = some i →
      parseOp op = none →
      dispatchFilter t [col, op, v] =
        .ok (.str "❌ Unsupported operator. Use ==, !=, >, <, >=, <=")) ∧
    (∀ (t : Table) (s : String) (rest : List String), pyInt? s = none →
      runHead t (s :: rest) = .ok (.str "❌ head(n) expects integer n") ∧
      runTail t (s :: rest) = .ok (.str "❌ tail(n) expects integer n")) := by
  refine ⟨?_, ?_,
    fun t f args hf => unknownFuncAux t f args hf,
    ?_, ?_, ?_, ?_, ?_, ?_, ?_, ?_⟩
  · intro t c h
    simp only [run, h]
    rfl
  · intro t c h0 hp
    have h1 : pyStrip c ≠ "help" := by
      intro he
      rw [he] at hp
      exact absurd hp (by decide)
    simp only [run, if_neg h0, if_neg h1, hp]
  · intro t f args h
    rcases args with _ | ⟨a, _ | ⟨b, rest⟩⟩ <;> first | rfl | simp at h
  · intro t args h
    rcases args with _ | ⟨a, _ | ⟨b, _ | ⟨c, _ | ⟨d, rest⟩⟩⟩⟩ <;>
      first | exact ⟨rfl, rfl⟩ | simp at h
  · intro t args h
    rcases args with _ | ⟨a, _ | ⟨b, rest⟩⟩ <;> first | exact ⟨rfl, rfl, rfl⟩ | simp at h
  · intro t args h
    rcases args with _ | ⟨a, _ | ⟨b, _ | ⟨c, rest⟩⟩⟩ <;> first | rfl | simp at h
  · intro t cands c h
    rw [validate_firstMissing, h]
    rfl
  · intro t g ag tc hv hag
    have hv2 : validateColumns t [g, tc] = none := by
      rw [validate_firstMissing, hv]
      rfl
    simp only [dispatchGroupby, hv2]
    rw [if_neg hag]
  · intro t col op v i hi hop
    have hv2 : validateColumns t [col] = none :=
      filter_validate_pass t col (colIndex?_mem t col i hi)
    simp only [dispatchFilter, hv2, hi, hop]
  · intro t s rest hp
    exact ⟨by simp [runHead, hp], by simp [runTail, hp]⟩

/-- Witness for C1 (amended) at concrete failing commands. -/
theorem c1_witness :
    run exTable "   " = mkOut exTable (.ok (.str "❌ Empty command")) ∧
    run exTable "mean(" = mkOut exTable (.ok (.str "❌ Invalid command: mean(")) := by
  constructor
  · exact c1_error_strings_amended.1 exTable "   " (by decide)
  · rw [c1_error_strings_amended.2.1 exTable "mean(" (by decide) (by decide)]
    decide

end Datatool
